import Mathlib

/-!
Verification of the railwat parameter-computation and collision-arbitration
pipeline.  The Python sources are shallowly embedded: floats become `ℝ`,
Python dicts become structures or `Option`-valued fields (`dict.get(k, d)`
becomes `Option.getD`), and the deterministic SHA-256 seeding used by the
track-risk module is embedded as a `Nat`-valued SHA-256.
-/

/-! ## SHA-256 (model of Python `hashlib.sha256`)

Bytes are `Nat`s below 256; words are `Nat`s below 2^32, reduced with `modW`.
-/

namespace SHA256

def modW (x : Nat) : Nat := x % 4294967296

def rotr (n x : Nat) : Nat := modW ((x >>> n) ||| (x <<< (32 - n)))

def bSig0 (x : Nat) : Nat := (rotr 2 x) ^^^ (rotr 13 x) ^^^ (rotr 22 x)

def bSig1 (x : Nat) : Nat := (rotr 6 x) ^^^ (rotr 11 x) ^^^ (rotr 25 x)

def sSig0 (x : Nat) : Nat := (rotr 7 x) ^^^ (rotr 18 x) ^^^ (x >>> 3)

def sSig1 (x : Nat) : Nat := (rotr 17 x) ^^^ (rotr 19 x) ^^^ (x >>> 10)

def ch (e f g : Nat) : Nat := (e &&& f) ^^^ ((4294967295 ^^^ e) &&& g)

def maj (a b c : Nat) : Nat := (a &&& b) ^^^ (a &&& c) ^^^ (b &&& c)

def kConst : List Nat :=
  [1116352408, 1899447441, 3049323471, 3921009573, 961987163,
   1508970993, 2453635748, 2870763221, 3624381080, 310598401,
   607225278, 1426881987, 1925078388, 2162078206, 2614888103,
   3248222580, 3835390401, 4022224774, 264347078, 604807628,
   770255983, 1249150122, 1555081692, 1996064986, 2554220882,
   2821834349, 2952996808, 3210313671, 3336571891, 3584528711,
   113926993, 338241895, 666307205, 773529912, 1294757372,
   1396182291, 1695183700, 1986661051, 2177026350, 2456956037,
   2730485921, 2820302411, 3259730800, 3345764771, 3516065817,
   3600352804, 4094571909, 275423344, 430227734, 506948616,
   659060556, 883997877, 958139571, 1322822218, 1537002063,
   1747873779, 1955562222, 2024104815, 2227730452, 2361852424,
   2428436474, 2756734187, 3204031479, 3329325298]

def hInit : List Nat :=
  [1779033703, 3144134277, 1013904242, 2773480762, 1359893119,
   2600822924, 528734635, 1541459225]

/-- 8-byte big-endian encoding of `n` (the 64-bit message length field). -/
def lenBytes (n : Nat) : List Nat :=
  (List.range 8).map (fun i => (n >>> (8 * (7 - i))) % 256)

/-- Append `0x80`, zero padding to 56 mod 64, then the bit length. -/
def pad (msg : List Nat) : List Nat :=
  let L := msg.length
  let zeros := (119 - L % 64) % 64
  msg ++ [0x80] ++ List.replicate zeros 0 ++ lenBytes (8 * L)

def wordOf (chunk : List Nat) (i : Nat) : Nat :=
  (chunk.getD (4 * i) 0) <<< 24 ||| (chunk.getD (4 * i + 1) 0) <<< 16 |||
  (chunk.getD (4 * i + 2) 0) <<< 8 ||| chunk.getD (4 * i + 3) 0

def scheduleStep (w : List Nat) : List Nat :=
  w ++ [modW (w.getD (w.length - 16) 0 + sSig0 (w.getD (w.length - 15) 0) +
              w.getD (w.length - 7) 0 + sSig1 (w.getD (w.length - 2) 0))]

/-- Message schedule `w[0..63]` of one 64-byte chunk. -/
def schedule (chunk : List Nat) : List Nat :=
  (List.range 48).foldl (fun w _ => scheduleStep w) ((List.range 16).map (wordOf chunk))

/-- One compression round over the running state `(a,b,c,d,e,f,g,h)`. -/
def compress (chunk : List Nat) (hs : List Nat) : List Nat :=
  let ws := schedule chunk
  let step := fun (st : Nat × Nat × Nat × Nat × Nat × Nat × Nat × Nat) (i : Nat) =>
    match st with
    | (a, b, c, d, e, f, g, h) =>
      let t1 := modW (h + bSig1 e + ch e f g + kConst.getD i 0 + ws.getD i 0)
      let t2 := modW (bSig0 a + maj a b c)
      (modW (t1 + t2), a, b, c, modW (d + t1), e, f, g)
  let fin := (List.range 64).foldl step
    (hs.getD 0 0, hs.getD 1 0, hs.getD 2 0, hs.getD 3 0,
     hs.getD 4 0, hs.getD 5 0, hs.getD 6 0, hs.getD 7 0)
  match fin with
  | (a, b, c, d, e, f, g, h) =>
    [modW (hs.getD 0 0 + a), modW (hs.getD 1 0 + b), modW (hs.getD 2 0 + c),
     modW (hs.getD 3 0 + d), modW (hs.getD 4 0 + e), modW (hs.getD 5 0 + f),
     modW (hs.getD 6 0 + g), modW (hs.getD 7 0 + h)]

def toChunks (l : List Nat) : List (List Nat) :=
  if h : l = [] then [] else l.take 64 :: toChunks (l.drop 64)
termination_by l.length
decreasing_by
  simp only [List.length_drop]
  have : 0 < l.length := List.length_pos.mpr h
  omega

/-- SHA-256 digest (32 bytes) of a byte string. -/
def digestBytes (msg : List Nat) : List Nat :=
  (((toChunks (pad msg)).foldl (fun hs c => compress c hs) hInit).map
    (fun w => [(w >>> 24) % 256, (w >>> 16) % 256, (w >>> 8) % 256, w % 256])).flatten

end SHA256

/-- UTF-8 encoding of one character (model of Python `str.encode("utf-8")`). -/
def utf8Char (c : Char) : List Nat :=
  let n := c.toNat
  if n < 0x80 then [n]
  else if n < 0x800 then [0xC0 ||| (n >>> 6), 0x80 ||| (n &&& 0x3F)]
  else if n < 0x10000 then
    [0xE0 ||| (n >>> 12), 0x80 ||| ((n >>> 6) &&& 0x3F), 0x80 ||| (n &&& 0x3F)]
  else
    [0xF0 ||| (n >>> 18), 0x80 ||| ((n >>> 12) &&& 0x3F),
     0x80 ||| ((n >>> 6) &&& 0x3F), 0x80 ||| (n &&& 0x3F)]

def utf8Encode (s : String) : List Nat := (s.data.map utf8Char).flatten

/-- `_seed_from_str` from computeTrackParameters.py: the first 8 digest bytes
read as a big-endian integer. -/
def seed_from_str (s : String) : Nat :=
  ((SHA256.digestBytes (utf8Encode s)).take 8).foldl (fun acc b => acc * 256 + b) 0

/-! ## Track Risk Module (computeTrackParameters.py)

Python floats are modelled as real numbers.
-/

/-- `_rand_from_seed_int`: deterministic draw in `[0, 1)` from a seed. -/
noncomputable def rand_from_seed_int (seed_int : Nat) : ℝ :=
  ((seed_int % 1000003 : ℕ) : ℝ) / 1000003

/-- `_clamp(v, lo, hi)` (the Python defaults `lo = 0`, `hi = 1` are passed
explicitly at every call site below). -/
noncomputable def clamp (v lo hi : ℝ) : ℝ := max lo (min hi v)

/-- `_normalize_speed_kmh(v, max_kmh)`. -/
noncomputable def normalize_speed_kmh (v max_kmh : ℝ) : ℝ := clamp (v / max_kmh) 0 1

/-- The bit-extraction idiom `((seed >> k) % m) / float(m)` that
`compute_edge_metrics` repeats for every metric. -/
noncomputable def seed_bits (seed k m : Nat) : ℝ := (((seed >>> k) % m : ℕ) : ℝ) / (m : ℝ)

/-- The dict returned by `compute_edge_metrics`. -/
structure EdgeMetrics where
  edge_id : String
  distance_km : ℝ
  track_condition : ℝ
  curve_severity : ℝ
  gradient_index : ℝ
  track_age : ℝ
  switch_count_norm : ℝ
  max_allowed_speed_kmh : ℝ
  drainage_risk : ℝ
  ballast_condition : ℝ
  embankment_susceptibility : ℝ
  electrification_health : ℝ
  switch_condition : ℝ

/-- `compute_edge_metrics(edge_id, distance_km)`: deterministic pseudo-random
edge-level metrics (the Python default `distance_km = 1.0` is passed
explicitly by callers below). -/
noncomputable def compute_edge_metrics (edge_id : String) (distance_km : ℝ) : EdgeMetrics :=
  let seed := seed_from_str edge_id
  let r := rand_from_seed_int seed
  let track_condition :=
    clamp (0.2 * r + 0.3 * seed_bits seed 7 100 + 0.1 * (distance_km / 10)) 0 1
  let curve_severity := clamp (0.1 * r + 0.6 * seed_bits seed 13 100) 0 1
  let gradient_index := clamp (0.05 * r + 0.4 * seed_bits seed 19 100) 0 1
  let track_age := clamp (0.2 * seed_bits seed 23 100 + 0.3 * r) 0 1
  let switch_count_norm := clamp (seed_bits seed 29 5) 0 1
  let base_max_speed := 200 - curve_severity * 80 - gradient_index * 40
  let base_max_speed := max 40 (base_max_speed - track_condition * 40)
  let drainage_risk := clamp (0.3 * seed_bits seed 17 100 + 0.4 * r) 0 1
  let ballast_condition := clamp (0.25 * seed_bits seed 11 100 + 0.5 * r) 0 1
  let embankment_susceptibility := clamp (0.2 * r + 0.6 * seed_bits seed 5 100) 0 1
  let electrification_health := clamp (0.2 * r + 0.5 * seed_bits seed 3 100) 0 1
  let switch_condition := clamp (0.2 * r + 0.6 * seed_bits seed 2 100) 0 1
  { edge_id := edge_id
    distance_km := distance_km
    track_condition := track_condition
    curve_severity := curve_severity
    gradient_index := gradient_index
    track_age := track_age
    switch_count_norm := switch_count_norm
    max_allowed_speed_kmh := base_max_speed
    drainage_risk := drainage_risk
    ballast_condition := ballast_condition
    embankment_susceptibility := embankment_susceptibility
    electrification_health := electrification_health
    switch_condition := switch_condition }

/-- A station record as consumed by `compute_track_parameters` (`name` is
never read; `lat`/`lon` may be absent). -/
structure TrackStation where
  id : String
  lat : Option ℝ
  lon : Option ℝ

/-- An edge `{source, target}`. -/
structure TrackEdge where
  source : String
  target : String
deriving DecidableEq

/-- The network-level result dict `p21..p40`. -/
structure TrackParams where
  p21 : ℝ
  p22 : ℝ
  p23 : ℝ
  p24 : ℝ
  p25 : ℝ
  p26 : ℝ
  p27 : ℝ
  p28 : ℝ
  p29 : ℝ
  p30 : ℝ
  p31 : ℝ
  p32 : ℝ
  p33 : ℝ
  p34 : ℝ
  p35 : ℝ
  p36 : ℝ
  p37 : ℝ
  p38 : ℝ
  p39 : ℝ
  p40 : ℝ

/-- Per-edge distance estimate used inside `compute_track_parameters`: a
planar approximation from station coordinates when available, else the
default.  The Python `try`/`except` maps a missing `lon` (with `lat`
present) to the default as well, which the four-way `Option` match mirrors. -/
noncomputable def edge_distance_km (stations : List TrackStation)
    (default_segment_km : ℝ) (e : TrackEdge) : ℝ :=
  match stations.find? (fun x => x.id = e.source), stations.find? (fun x => x.id = e.target) with
  | some s, some t =>
    match s.lat, s.lon, t.lat, t.lon with
    | some slat, some slon, some tlat, some tlon =>
      max 0.1 (Real.sqrt ((slat - tlat) ^ 2 + (slon - tlon) ^ 2) * 111)
    | _, _, _, _ => default_segment_km
  | _, _ => default_segment_km

/-- `compute_track_parameters(stations, edges, default_segment_km)`: the
network-level aggregation P21..P40.  The Python accumulation loop is rendered
as one map-and-sum per accumulator. -/
noncomputable def compute_track_parameters (stations : List TrackStation)
    (edges : List TrackEdge) (default_segment_km : ℝ) : TrackParams :=
  if edges = [] then
    -- return safe defaults (very healthy low-risk network)
    ⟨0, 0, 0, 0, 0, 0, 0, 0, 0, 0, 0, 0, 0, 0, 0, 0, 0, 0, 0, 0⟩
  else
    let n_edges : ℝ := edges.length
    let big_station_ids := (stations.take 5).map (fun s => s.id)
    let isBig := fun (s : String) => s ∈ big_station_ids
    let dist := edge_distance_km stations default_segment_km
    let em := fun (e : TrackEdge) => compute_edge_metrics (e.source ++ "-" ++ e.target) (dist e)
    let seedOf := fun (e : TrackEdge) => seed_from_str (e.source ++ "-" ++ e.target)
    let sum_track_condition := (edges.map (fun e => (em e).track_condition)).sum
    let sum_curve := (edges.map (fun e => (em e).curve_severity)).sum
    let sum_grad := (edges.map (fun e => (em e).gradient_index)).sum
    let sum_age := (edges.map (fun e => (em e).track_age)).sum
    let sum_switch_density := (edges.map (fun e => (em e).switch_count_norm / max 1 (dist e))).sum
    let max_speed_seen := (edges.map (fun e => (em e).max_allowed_speed_kmh)).foldl max 0
    let sum_gauge_var := (edges.map (fun e => seed_bits (seedOf e) 17 100)).sum
    let sum_drainage := (edges.map (fun e => (em e).drainage_risk)).sum
    let sum_ballast := (edges.map (fun e => (em e).ballast_condition)).sum
    let sum_embank := (edges.map (fun e => (em e).embankment_susceptibility)).sum
    let sum_signal_gap := (edges.map (fun e =>
      if isBig e.source ∨ isBig e.target then 0.2 * rand_from_seed_int (seedOf e)
      else 0.5 * rand_from_seed_int (seedOf e))).sum
    let sum_switch_cond := (edges.map (fun e => (em e).switch_condition)).sum
    let sum_electr_health := (edges.map (fun e => (em e).electrification_health)).sum
    let sum_thermal_risk := (edges.map (fun e => 0.2 * rand_from_seed_int (seedOf e))).sum
    let total_utilization_proxy := (edges.map (fun e =>
      if isBig e.source ∧ isBig e.target then (2 : ℝ) else 1)).sum
    let sum_seg_len_km := (edges.map dist).sum
    let sum_maintenance_overdue := (edges.map (fun e =>
      (em e).track_age * (0.3 + 0.7 * rand_from_seed_int (seedOf e)))).sum
    let sum_ballast_uniform := (edges.map (fun e => 1 - (em e).ballast_condition)).sum
    let sum_lateral_clearance := (edges.map (fun e => 1 - (em e).curve_severity)).sum
    let avg_track_condition := clamp (sum_track_condition / n_edges) 0 1
    let avg_curve := clamp (sum_curve / n_edges) 0 1
    let avg_gradient := clamp (sum_grad / n_edges) 0 1
    let avg_age := clamp (sum_age / n_edges) 0 1
    let avg_switch_density := clamp (sum_switch_density / n_edges) 0 1
    let p26_norm := normalize_speed_kmh max_speed_seen 200
    let avg_gauge_var := clamp (sum_gauge_var / n_edges) 0 1
    let avg_drainage := clamp (sum_drainage / n_edges) 0 1
    let avg_ballast := clamp (sum_ballast / n_edges) 0 1
    let avg_embank := clamp (sum_embank / n_edges) 0 1
    let avg_signal_gap := clamp (sum_signal_gap / n_edges) 0 1
    let avg_switch_cond := clamp (sum_switch_cond / n_edges) 0 1
    let avg_electr_health := clamp (sum_electr_health / n_edges) 0 1
    let avg_thermal_risk := clamp (sum_thermal_risk / n_edges) 0 1
    let track_utilization := clamp (total_utilization_proxy / (2 * n_edges)) 0 1
    let avg_seg_len_km := clamp (sum_seg_len_km / (n_edges * 100)) 0 1
    let maintenance_overdue := clamp (sum_maintenance_overdue / (n_edges * 1)) 0 1
    let ballast_uniformity := clamp (sum_ballast_uniform / n_edges) 0 1
    let lateral_clearance := clamp (sum_lateral_clearance / n_edges) 0 1
    let aggregate_track_risk := clamp
      (0.20 * avg_track_condition + 0.15 * avg_curve + 0.10 * avg_gradient + 0.10 * avg_age
        + 0.10 * avg_drainage + 0.10 * (1 - ballast_uniformity) + 0.15 * maintenance_overdue) 0 1
    { p21 := avg_track_condition
      p22 := avg_curve
      p23 := avg_gradient
      p24 := avg_age
      p25 := clamp avg_switch_density 0 1
      p26 := p26_norm
      p27 := avg_gauge_var
      p28 := avg_drainage
      p29 := avg_ballast
      p30 := avg_embank
      p31 := avg_signal_gap
      p32 := avg_switch_cond
      p33 := avg_electr_health
      p34 := avg_thermal_risk
      p35 := track_utilization
      p36 := avg_seg_len_km
      p37 := maintenance_overdue
      p38 := clamp (1 - avg_ballast) 0 1
      p39 := lateral_clearance
      p40 := aggregate_track_risk }

/-! ## Train Kinematics Module (computeTrainParameters.py) -/

/-- One train snapshot dict; absent keys are `none` (`t.get(k, d)` becomes
`Option.getD`). -/
structure TrainSnap where
  id : String
  speed : Option ℝ
  progress : Option ℝ
  priority : Option ℝ
  status : Option String
  prev_speed : Option ℝ
  prev_accel : Option ℝ
  startTime : Option ℝ
  now : Option ℝ
  lat : Option ℝ
  lon : Option ℝ

/-- The 20 per-train indicators `p1..p20`. -/
structure TrainParams where
  p1 : ℝ
  p2 : ℝ
  p3 : ℝ
  p4 : ℝ
  p5 : ℝ
  p6 : ℝ
  p7 : ℝ
  p8 : ℝ
  p9 : ℝ
  p10 : ℝ
  p11 : ℝ
  p12 : ℝ
  p13 : ℝ
  p14 : ℝ
  p15 : ℝ
  p16 : ℝ
  p17 : ℝ
  p18 : ℝ
  p19 : ℝ
  p20 : ℝ

/-- `status_map.get(status, 0.2)`. -/
noncomputable def status_risk (status : String) : ℝ :=
  if status = "RUNNING" then 0.1
  else if status = "STOPPED" then 0.5
  else if status = "EMERGENCY" then 1.0
  else if status = "DELAYED" then 0.6
  else 0.2

/-- The acceleration estimate `(speed_kmh - prev_speed) / max(1.0, 1.0)`
computed for one train in `compute_train_parameters`. -/
noncomputable def accel_of (t : TrainSnap) : ℝ :=
  let speed_kmh := t.speed.getD 0
  (speed_kmh - t.prev_speed.getD speed_kmh) / max 1 1

/-- The indicator block of the `compute_train_parameters` loop body for one
train. -/
noncomputable def train_params (t : TrainSnap) : TrainParams :=
  let speed_kmh := t.speed.getD 0
  let progress := t.progress.getD 0
  let priority := t.priority.getD 1
  let status := t.status.getD "RUNNING"
  let speed_mps := speed_kmh / 3.6
  let p1 := min 1 (speed_kmh / 200)
  let prev_speed := t.prev_speed.getD speed_kmh
  let accel := (speed_kmh - prev_speed) / max 1 1
  let p2 := max (-1) (min 1 (accel / 50))
  let prev_accel := t.prev_accel.getD accel
  let jerk := accel - prev_accel
  let p3 := max (-1) (min 1 (jerk / 20))
  let p4 := min 1 ((speed_mps ^ 2) / (40 ^ 2))
  let p5 := max 0 (min 1 progress)
  let p6 := 1 - p5
  let decel := (0.8 : ℝ)
  let stopping_distance := (speed_mps ^ 2) / (2 * decel + 1e-9)
  let p7 := min 1 (stopping_distance / 2000)
  let p8 := min 1 (priority / 3)
  let start_time := t.startTime.getD 0
  let elapsed := if 0 < start_time then (t.now.getD start_time - start_time) / 1000 else 0
  let p9 := min 1 (elapsed / 3600)
  let p10 := status_risk status
  let p11 := (0 : ℝ)
  let p12 := |speed_kmh - prev_speed| / 200
  let p13 := min 1 (speed_kmh / max 1 (priority * 100))
  let p14 := 1 - min 1 |p3|
  let p15 := min 1 (speed_mps * 1 / 50)
  let p16 := p5
  let p17 := if speed_kmh < 0 then min 1 (|speed_kmh| / 50) else 0
  let p18 := (0 : ℝ)
  let lat := t.lat.getD 0
  let lon := t.lon.getD 0
  let p19 := min 1 (Int.fract (|lat| + |lon|))
  let p20 := (p1 + p5 + p8) / 3
  ⟨p1, p2, p3, p4, p5, p6, p7, p8, p9, p10,
   p11, p12, p13, p14, p15, p16, p17, p18, p19, p20⟩

/-- The in-place mutation at the end of the loop body:
`t["prev_speed"] = speed_kmh; t["prev_accel"] = accel`. -/
noncomputable def update_snap (t : TrainSnap) : TrainSnap :=
  { t with prev_speed := some (t.speed.getD 0), prev_accel := some (accel_of t) }

/-- `compute_train_parameters(trains)`: the results dict (as an association
list keyed by train id) together with the mutated snapshots. -/
noncomputable def compute_train_parameters (trains : List TrainSnap) :
    List (String × TrainParams) × List TrainSnap :=
  (trains.map (fun t => (t.id, train_params t)), trains.map update_snap)

/-! ## Station Capacity Module (station_params.py) -/

def G : ℝ := 9.81

noncomputable def kmh_to_mps (v_kmh : ℝ) : ℝ := v_kmh / 3.6

noncomputable def braking_distance (v_kmh mu : ℝ) : ℝ :=
  let v := kmh_to_mps v_kmh
  let mu := if mu ≤ 0 then 0.25 else mu
  (v * v) / (2 * mu * G)

noncomputable def reaction_distance (v_kmh reaction_time_s : ℝ) : ℝ :=
  kmh_to_mps v_kmh * reaction_time_s

noncomputable def platform_utilization (arrival_rate_per_hr avg_dwell_s : ℝ) : ℝ :=
  (arrival_rate_per_hr * avg_dwell_s) / 3600

/-- `max_simultaneous_trains(station_length_m, avg_train_length_m)`. -/
noncomputable def max_simultaneous_trains (station_length_m avg_train_length_m : ℝ) : ℤ :=
  if avg_train_length_m ≤ 0 then 0
  else ⌊station_length_m / avg_train_length_m⌋

/-- A Python float that may be the `float('inf')` sentinel. -/
inductive CapVal where
  | inf : CapVal
  | val : ℝ → CapVal

/-- `capacity_per_platform(avg_dwell_s, buffer_s)`: `float('inf')` when the
denominator is not positive. -/
noncomputable def capacity_per_platform (avg_dwell_s buffer_s : ℝ) : CapVal :=
  let denom := avg_dwell_s + buffer_s
  if denom ≤ 0 then .inf
  else .val (3600 / denom)

/-- `station_capacity(num_platforms, avg_dwell_s, buffer_s)`; multiplying the
infinite sentinel by `max(1, num_platforms) ≥ 1` keeps it infinite. -/
noncomputable def station_capacity (num_platforms : ℤ) (avg_dwell_s buffer_s : ℝ) : CapVal :=
  match capacity_per_platform avg_dwell_s buffer_s with
  | .inf => .inf
  | .val c => .val (c * ((max 1 num_platforms : ℤ) : ℝ))

noncomputable def risk_index_from_utilization (overall_utilization cv : ℝ) : ℝ :=
  overall_utilization ^ 2 * (1 + cv * cv)

/-! ## Geodesy utility and Collision Arbitration (extreme_ai_server.py) -/

/-- `math.radians`. -/
noncomputable def radians (x : ℝ) : ℝ := x * Real.pi / 180

/-- `haversine(lat1, lon1, lat2, lon2)`: great-circle distance in meters,
Earth radius 6,371,000 m. -/
noncomputable def haversine (lat1 lon1 lat2 lon2 : ℝ) : ℝ :=
  let R : ℝ := 6371000
  let dLat := radians (lat2 - lat1)
  let dLon := radians (lon2 - lon1)
  let a := Real.sin (dLat / 2) ^ 2 +
    Real.cos (radians lat1) * Real.cos (radians lat2) * Real.sin (dLon / 2) ^ 2
  2 * R * Real.arcsin (Real.sqrt a)

/-- A train as consumed by `decide_collision_action`: `lat`/`lon` are
accessed unconditionally, `speed` and `priority` through `.get` defaults. -/
structure CTrain where
  id : String
  lat : ℝ
  lon : ℝ
  speed : Option ℝ
  priority : Option ℝ

/-- The decision dict returned by `decide_collision_action`. -/
inductive Decision where
  | noAction : Decision
  | stopBoth (reason : String) : Decision
  | stopOne (stop_train let_pass reason : String) : Decision
deriving DecidableEq

/-- `decide_collision_action(trains)`: only the first two trains are
considered. -/
noncomputable def decide_collision_action (trains : List CTrain) : Decision :=
  match trains with
  | A :: B :: _ =>
    let dist := haversine A.lat A.lon B.lat B.lon
    let prA := A.priority.getD 1
    let prB := B.priority.getD 1
    let sA := A.speed.getD 0
    let sB := B.speed.getD 0
    if dist ≤ 35 then .stopBoth "Critical proximity"
    else if prA > prB then .stopOne B.id A.id "Train A higher priority"
    else if prB > prA then .stopOne A.id B.id "Train B higher priority"
    else if sA > sB then .stopOne B.id A.id "Train A faster"
    else if sB > sA then .stopOne A.id B.id "Train B faster"
    else .stopBoth "Same speed & priority"
  | _ => .noAction

/-! ## Track Segmentation Module (track_segmenter.py)

The stations mapping is a partial map from station name to coordinates; an
unknown endpoint (a `KeyError` in Python) surfaces as `none`.
-/

/-- A `{lat, lon}` coordinate record. -/
structure Coord where
  lat : ℝ
  lon : ℝ

/-- Modelled from the spec: `generate_segment_environment` lives in
`environment_model.py`, which is not part of the sources; the spec treats it
as an opaque external generator `(segment_identifier, distance_meters) ->
opaque attribute mapping`, so its output is modelled as the opaque record of
its two inputs. -/
structure EnvRecord where
  segment_id : String
  distance_meters : ℝ

/-- Modelled from the spec: the opaque segment-environment generator. -/
noncomputable def generate_segment_environment (segment_id : String)
    (distance_meters : ℝ) : EnvRecord :=
  ⟨segment_id, distance_meters⟩

/-- One 100 m segment with interpolated endpoints. -/
structure Segment where
  id : String
  start : Coord
  «end» : Coord
  env : EnvRecord

/-- `segment_track(stations, u, v, segment_length)`.  `num_segments` is
`max(1, int(total_dist // segment_length))`; for a nonzero divisor Python's
float floor-division is the mathematical floor. -/
noncomputable def segment_track (stations : String → Option Coord) (u v : String)
    (segment_length : ℝ) : Option (List Segment) :=
  match stations u, stations v with
  | some A, some B =>
    let lat1 := A.lat
    let lon1 := A.lon
    let lat2 := B.lat
    let lon2 := B.lon
    let total_dist := haversine lat1 lon1 lat2 lon2
    let num_segments : ℤ := max 1 ⌊total_dist / segment_length⌋
    some ((List.range num_segments.toNat).map (fun (i : ℕ) =>
      let t1 : ℝ := (i : ℝ) / (num_segments : ℝ)
      let t2 : ℝ := ((i : ℝ) + 1) / (num_segments : ℝ)
      let sx := lat1 + (lat2 - lat1) * t1
      let sy := lon1 + (lon2 - lon1) * t1
      let ex := lat1 + (lat2 - lat1) * t2
      let ey := lon1 + (lon2 - lon1) * t2
      let segment_id := u ++ "-" ++ v ++ "-" ++ toString i
      { id := segment_id
        start := ⟨sx, sy⟩
        «end» := ⟨ex, ey⟩
        env := generate_segment_environment segment_id segment_length }))
  | _, _ => none

/-- The per-train frame condition of C6: the updated snapshot carries the
current speed and this call's acceleration, and every other field is
untouched. -/
def FrameCond (t u : TrainSnap) : Prop :=
  u.prev_speed = some (t.speed.getD 0) ∧
  u.prev_accel = some ((t.speed.getD 0 - t.prev_speed.getD (t.speed.getD 0)) / max 1 1) ∧
  u.id = t.id ∧ u.speed = t.speed ∧ u.progress = t.progress ∧ u.priority = t.priority ∧
  u.status = t.status ∧ u.startTime = t.startTime ∧ u.now = t.now ∧
  u.lat = t.lat ∧ u.lon = t.lon

/-! ## Helper lemmas -/

lemma le_clamp (v lo hi : ℝ) : lo ≤ clamp v lo hi := le_max_left _ _

lemma clamp_le (v lo hi : ℝ) (h : lo ≤ hi) : clamp v lo hi ≤ hi :=
  max_le h (min_le_left _ _)

lemma clamp_eq_self (v lo hi : ℝ) (h1 : lo ≤ v) (h2 : v ≤ hi) : clamp v lo hi = v := by
  unfold clamp
  rw [min_eq_right h2, max_eq_right h1]

lemma rand_from_seed_int_nonneg (s : Nat) : 0 ≤ rand_from_seed_int s := by
  unfold rand_from_seed_int
  positivity

lemma rand_from_seed_int_lt_one (s : Nat) : rand_from_seed_int s < 1 := by
  unfold rand_from_seed_int
  rw [div_lt_one (by norm_num)]
  exact_mod_cast Nat.mod_lt s (by norm_num)

lemma seed_bits_nonneg (s k m : Nat) : 0 ≤ seed_bits s k m := by
  unfold seed_bits
  positivity

lemma seed_bits_lt_one (s k m : Nat) (hm : 0 < m) : seed_bits s k m < 1 := by
  unfold seed_bits
  rw [div_lt_one (by exact_mod_cast hm)]
  exact_mod_cast Nat.mod_lt _ hm

/-- Evaluation of the `track_condition` field. -/
lemma compute_edge_metrics_track_condition (e : String) (d : ℝ) :
    (compute_edge_metrics e d).track_condition =
      clamp (0.2 * rand_from_seed_int (seed_from_str e) +
        0.3 * seed_bits (seed_from_str e) 7 100 + 0.1 * (d / 10)) 0 1 := rfl

/-- Evaluation of the `max_allowed_speed_kmh` field. -/
lemma compute_edge_metrics_max_speed (e : String) (d : ℝ) :
    (compute_edge_metrics e d).max_allowed_speed_kmh =
      max 40 (200 - (compute_edge_metrics e d).curve_severity * 80 -
        (compute_edge_metrics e d).gradient_index * 40 -
        (compute_edge_metrics e d).track_condition * 40) := rfl

lemma compute_edge_metrics_curve_nonneg (e : String) (d : ℝ) :
    0 ≤ (compute_edge_metrics e d).curve_severity := le_clamp _ 0 1

lemma compute_edge_metrics_gradient_nonneg (e : String) (d : ℝ) :
    0 ≤ (compute_edge_metrics e d).gradient_index := le_clamp _ 0 1

lemma compute_edge_metrics_track_condition_nonneg (e : String) (d : ℝ) :
    0 ≤ (compute_edge_metrics e d).track_condition := le_clamp _ 0 1

/-- The distance-free part of `track_condition` lies in `[0, 1/2)`. -/
lemma track_condition_core_bounds (s : Nat) :
    0 ≤ 0.2 * rand_from_seed_int s + 0.3 * seed_bits s 7 100 ∧
    0.2 * rand_from_seed_int s + 0.3 * seed_bits s 7 100 < 0.5 := by
  have h1 := rand_from_seed_int_nonneg s
  have h2 := rand_from_seed_int_lt_one s
  have h3 := seed_bits_nonneg s 7 100
  have h4 := seed_bits_lt_one s 7 100 (by norm_num)
  constructor <;> nlinarith

/-! ## Claim theorems -/

/-- C10: for every edge identity string and every distance value, the
`max_allowed_speed_kmh` metric returned by `compute_edge_metrics` lies in the
closed interval `[40, 200]` km/h. -/
theorem max_allowed_speed_in_range (e : String) (d : ℝ) :
    40 ≤ (compute_edge_metrics e d).max_allowed_speed_kmh ∧
    (compute_edge_metrics e d).max_allowed_speed_kmh ≤ 200 := by
  rw [compute_edge_metrics_max_speed]
  refine ⟨le_max_left _ _, max_le (by norm_num) ?_⟩
  have h1 := compute_edge_metrics_curve_nonneg e d
  have h2 := compute_edge_metrics_gradient_nonneg e d
  have h3 := compute_edge_metrics_track_condition_nonneg e d
  nlinarith

/-- C2 counterexample: the metrics returned by `compute_edge_metrics` are not
a function of the edge identity string alone — the same identity with two
different distance arguments yields different `track_condition` values. -/
theorem compute_edge_metrics_depends_on_distance :
    compute_edge_metrics "A-B" 1 ≠ compute_edge_metrics "A-B" 2 := by
  intro h
  have htc := congrArg EdgeMetrics.track_condition h
  rw [compute_edge_metrics_track_condition, compute_edge_metrics_track_condition] at htc
  obtain ⟨hy0, hy1⟩ := track_condition_core_bounds (seed_from_str "A-B")
  revert hy0 hy1 htc
  generalize 0.2 * rand_from_seed_int (seed_from_str "A-B") +
    0.3 * seed_bits (seed_from_str "A-B") 7 100 = y
  intro htc hy0 hy1
  rw [clamp_eq_self (y + 0.1 * ((1:ℝ) / 10)) 0 1 (by linarith) (by linarith)] at htc
  rw [clamp_eq_self (y + 0.1 * ((2:ℝ) / 10)) 0 1 (by linarith) (by linarith)] at htc
  linarith

/-- C2 (amended): with identical edge identity strings, the nine metrics that
do not involve the distance argument are bit-identical, and all metrics are
bit-identical as soon as the distance arguments also coincide. -/
theorem compute_edge_metrics_deterministic (e₁ e₂ : String) (d₁ d₂ : ℝ) (he : e₁ = e₂) :
    ((compute_edge_metrics e₁ d₁).curve_severity = (compute_edge_metrics e₂ d₂).curve_severity ∧
     (compute_edge_metrics e₁ d₁).gradient_index = (compute_edge_metrics e₂ d₂).gradient_index ∧
     (compute_edge_metrics e₁ d₁).track_age = (compute_edge_metrics e₂ d₂).track_age ∧
     (compute_edge_metrics e₁ d₁).switch_count_norm = (compute_edge_metrics e₂ d₂).switch_count_norm ∧
     (compute_edge_metrics e₁ d₁).drainage_risk = (compute_edge_metrics e₂ d₂).drainage_risk ∧
     (compute_edge_metrics e₁ d₁).ballast_condition = (compute_edge_metrics e₂ d₂).ballast_condition ∧
     (compute_edge_metrics e₁ d₁).embankment_susceptibility
       = (compute_edge_metrics e₂ d₂).embankment_susceptibility ∧
     (compute_edge_metrics e₁ d₁).electrification_health
       = (compute_edge_metrics e₂ d₂).electrification_health ∧
     (compute_edge_metrics e₁ d₁).switch_condition = (compute_edge_metrics e₂ d₂).switch_condition) ∧
    (d₁ = d₂ → compute_edge_metrics e₁ d₁ = compute_edge_metrics e₂ d₂) := by
  subst he
  exact ⟨⟨rfl, rfl, rfl, rfl, rfl, rfl, rfl, rfl, rfl⟩, fun hd => by rw [hd]⟩

/-- Witness for C2's amended theorem at a concrete edge id and two distinct
distances. -/
theorem compute_edge_metrics_deterministic_witness :
    (compute_edge_metrics "X" 1).curve_severity = (compute_edge_metrics "X" 2).curve_severity :=
  (compute_edge_metrics_deterministic "X" "X" 1 2 rfl).1.1

/-- C8: for every list of stations, `compute_track_parameters` called with an
empty edge list returns all 20 network indicators `p21..p40` equal to 0.0. -/
theorem compute_track_parameters_zero_edges (stations : List TrackStation)
    (default_segment_km : ℝ) :
    (compute_track_parameters stations [] default_segment_km).p21 = 0 ∧
    (compute_track_parameters stations [] default_segment_km).p22 = 0 ∧
    (compute_track_parameters stations [] default_segment_km).p23 = 0 ∧
    (compute_track_parameters stations [] default_segment_km).p24 = 0 ∧
    (compute_track_parameters stations [] default_segment_km).p25 = 0 ∧
    (compute_track_parameters stations [] default_segment_km).p26 = 0 ∧
    (compute_track_parameters stations [] default_segment_km).p27 = 0 ∧
    (compute_track_parameters stations [] default_segment_km).p28 = 0 ∧
    (compute_track_parameters stations [] default_segment_km).p29 = 0 ∧
    (compute_track_parameters stations [] default_segment_km).p30 = 0 ∧
    (compute_track_parameters stations [] default_segment_km).p31 = 0 ∧
    (compute_track_parameters stations [] default_segment_km).p32 = 0 ∧
    (compute_track_parameters stations [] default_segment_km).p33 = 0 ∧
    (compute_track_parameters stations [] default_segment_km).p34 = 0 ∧
    (compute_track_parameters stations [] default_segment_km).p35 = 0 ∧
    (compute_track_parameters stations [] default_segment_km).p36 = 0 ∧
    (compute_track_parameters stations [] default_segment_km).p37 = 0 ∧
    (compute_track_parameters stations [] default_segment_km).p38 = 0 ∧
    (compute_track_parameters stations [] default_segment_km).p39 = 0 ∧
    (compute_track_parameters stations [] default_segment_km).p40 = 0 :=
  ⟨rfl, rfl, rfl, rfl, rfl, rfl, rfl, rfl, rfl, rfl,
   rfl, rfl, rfl, rfl, rfl, rfl, rfl, rfl, rfl, rfl⟩

/-- C9 counterexample: `max_simultaneous_trains` is not "never negative" — a
negative station length with a positive train length yields a negative
count. -/
theorem max_simultaneous_trains_negative_counterexample :
    max_simultaneous_trains (-100) 50 = -2 ∧ max_simultaneous_trains (-100) 50 < 0 := by
  have h : max_simultaneous_trains (-100) 50 = -2 := by
    unfold max_simultaneous_trains
    rw [if_neg (by norm_num)]
    rw [show (-100 : ℝ) / 50 = -2 by norm_num]
    exact_mod_cast Int.floor_intCast (-2)
  exact ⟨h, by rw [h]; norm_num⟩

/-- C9 (amended): `max_simultaneous_trains` is 0 when the average train
length is not positive and `floor(station_length_m / avg_train_length_m)`
otherwise; the result is nonnegative whenever the station length is. -/
theorem max_simultaneous_trains_spec (station_length_m avg_train_length_m : ℝ) :
    (avg_train_length_m ≤ 0 → max_simultaneous_trains station_length_m avg_train_length_m = 0) ∧
    (0 < avg_train_length_m → max_simultaneous_trains station_length_m avg_train_length_m =
      ⌊station_length_m / avg_train_length_m⌋) ∧
    (0 ≤ station_length_m → 0 ≤ max_simultaneous_trains station_length_m avg_train_length_m) := by
  refine ⟨fun h => ?_, fun h => ?_, fun hs => ?_⟩
  · unfold max_simultaneous_trains
    rw [if_pos h]
  · unfold max_simultaneous_trains
    rw [if_neg (not_le.mpr h)]
  · unfold max_simultaneous_trains
    split
    · exact le_refl 0
    · next h =>
      exact Int.floor_nonneg.mpr (div_nonneg hs (le_of_lt (not_le.mp h)))

/-- Witness for C9's amended theorem at concrete inputs. -/
theorem max_simultaneous_trains_spec_witness :
    (0 : ℝ) < 200 ∧ max_simultaneous_trains 400 200 = ⌊(400 : ℝ) / 200⌋ :=
  ⟨by norm_num, (max_simultaneous_trains_spec 400 200).2.1 (by norm_num)⟩

/-- C4: a nonpositive dwell-plus-buffer denominator makes both
`capacity_per_platform` and `station_capacity` return the infinite sentinel,
and a positive denominator gives the documented quotient and product. -/
theorem station_capacity_unbounded_spec :
    (∀ avg_dwell_s buffer_s : ℝ, avg_dwell_s + buffer_s ≤ 0 →
      capacity_per_platform avg_dwell_s buffer_s = .inf ∧
      ∀ num_platforms : ℤ, station_capacity num_platforms avg_dwell_s buffer_s = .inf) ∧
    (∀ avg_dwell_s buffer_s : ℝ, 0 < avg_dwell_s + buffer_s →
      capacity_per_platform avg_dwell_s buffer_s = .val (3600 / (avg_dwell_s + buffer_s)) ∧
      ∀ num_platforms : ℤ, station_capacity num_platforms avg_dwell_s buffer_s =
        .val (3600 / (avg_dwell_s + buffer_s) * ((max 1 num_platforms : ℤ) : ℝ))) := by
  constructor
  · intro d b h
    have h1 : capacity_per_platform d b = .inf := by
      unfold capacity_per_platform
      rw [if_pos h]
    exact ⟨h1, fun n => by unfold station_capacity; rw [h1]⟩
  · intro d b h
    have h1 : capacity_per_platform d b = .val (3600 / (d + b)) := by
      unfold capacity_per_platform
      rw [if_neg (not_le.mpr h)]
    exact ⟨h1, fun n => by unfold station_capacity; rw [h1]⟩

/-- Witness for C4 at `avg_dwell_s = buffer_s = 0` (and a positive case). -/
theorem station_capacity_unbounded_spec_witness :
    capacity_per_platform 0 0 = .inf ∧ station_capacity 2 0 0 = .inf ∧
    capacity_per_platform 150 30 = .val (3600 / (150 + 30)) :=
  ⟨(station_capacity_unbounded_spec.1 0 0 (by norm_num)).1,
   (station_capacity_unbounded_spec.1 0 0 (by norm_num)).2 2,
   (station_capacity_unbounded_spec.2 150 30 (by norm_num)).1⟩

/-- Evaluation of the `p1` indicator. -/
lemma train_params_p1 (t : TrainSnap) :
    (train_params t).p1 = min 1 (t.speed.getD 0 / 200) := rfl

/-- Evaluation of the `p9` indicator. -/
lemma train_params_p9 (t : TrainSnap) :
    (train_params t).p9 = min 1
      ((if 0 < t.startTime.getD 0
        then (t.now.getD (t.startTime.getD 0) - t.startTime.getD 0) / 1000
        else 0) / 3600) := rfl

/-- C3 (failing input): a reversing train (`speed = -100`, an input the
module explicitly supports via the reversal indicator `p17`) gets a speed
indicator `p1 = -1/2`, outside the documented `[0, 1]` range. -/
theorem train_params_p1_negative_at_reversal :
    (train_params ⟨"T", some (-100), none, none, none, none, none, none, none, none, none⟩).p1
      = -(1 / 2) ∧
    (train_params ⟨"T", some (-100), none, none, none, none, none, none, none, none, none⟩).p1
      < 0 := by
  have h : (train_params
      ⟨"T", some (-100), none, none, none, none, none, none, none, none, none⟩).p1 = -(1 / 2) := by
    rw [train_params_p1]
    show min 1 ((-100 : ℝ) / 200) = -(1 / 2)
    rw [min_eq_right (by norm_num)]
    norm_num
  exact ⟨h, by rw [h]; norm_num⟩

/-- C5 counterexample: for `startTime = 1`, `now = 3601` the code yields
`p9 = 1/1000`, not the claimed `min(1, (now - start)/3600) = 1` — the code
divides the elapsed time by 1000 before the 3600 normalization. -/
theorem train_params_p9_missing_ms_conversion :
    (train_params ⟨"T", none, none, none, none, none, none, some 1, some 3601, none, none⟩).p9
      ≠ min 1 (((3601 : ℝ) - 1) / 3600) := by
  rw [train_params_p9]
  show min 1 ((if (0 : ℝ) < (some (1:ℝ)).getD 0
      then ((some (3601:ℝ)).getD ((some (1:ℝ)).getD 0) - (some (1:ℝ)).getD 0) / 1000
      else 0) / 3600) ≠ min 1 (((3601 : ℝ) - 1) / 3600)
  rw [Option.getD_some, Option.getD_some, if_pos (by norm_num)]
  rw [show ((3601 : ℝ) - 1) / 1000 / 3600 = 1 / 1000 by norm_num]
  rw [show ((3601 : ℝ) - 1) / 3600 = 1 by norm_num]
  rw [min_eq_right (by norm_num), min_self]
  norm_num

/-- C5 (amended): `p9 = min(1, ((now - start)/1000)/3600)` when a positive
start time is present (with `now` defaulting to the start time when absent),
and `p9 = 0` when no positive start time or no current time is present. -/
theorem train_params_p9_spec (t : TrainSnap) :
    (0 < t.startTime.getD 0 → (train_params t).p9 =
      min 1 ((t.now.getD (t.startTime.getD 0) - t.startTime.getD 0) / 1000 / 3600)) ∧
    (¬ 0 < t.startTime.getD 0 → (train_params t).p9 = 0) ∧
    (t.now = none → (train_params t).p9 = 0) := by
  refine ⟨fun h => ?_, fun h => ?_, fun h => ?_⟩
  · rw [train_params_p9, if_pos h]
  · rw [train_params_p9, if_neg h]
    norm_num
  · rw [train_params_p9, h]
    by_cases hs : 0 < t.startTime.getD 0
    · rw [if_pos hs]
      simp
    · rw [if_neg hs]
      norm_num

/-- Witness for C5's amended theorem at a concrete snapshot. -/
theorem train_params_p9_spec_witness :
    (0 : ℝ) < (some (1000 : ℝ)).getD 0 ∧
    (train_params ⟨"T", none, none, none, none, none, none, some 1000, some 4600000, none,
        none⟩).p9 =
      min 1 (((some (4600000 : ℝ)).getD ((some (1000 : ℝ)).getD 0) -
        (some (1000 : ℝ)).getD 0) / 1000 / 3600) :=
  ⟨by norm_num,
   (train_params_p9_spec
     ⟨"T", none, none, none, none, none, none, some 1000, some 4600000, none, none⟩).1
     (by norm_num)⟩

lemma frame_cond_update (t : TrainSnap) : FrameCond t (update_snap t) :=
  ⟨rfl, rfl, rfl, rfl, rfl, rfl, rfl, rfl, rfl, rfl, rfl⟩

/-- C6: after `compute_train_parameters`, each returned snapshot's
`prev_speed` equals the train's current speed, its `prev_accel` equals the
acceleration computed in this call, and no other field is modified. -/
theorem compute_train_parameters_frame_effect (trains : List TrainSnap) :
    List.Forall₂ FrameCond trains (compute_train_parameters trains).2 := by
  unfold compute_train_parameters
  induction trains with
  | nil => exact List.Forall₂.nil
  | cons t ts ih => exact List.Forall₂.cons (frame_cond_update t) ih

/-- On the equator, the haversine distance reduces to arc length. -/
lemma haversine_equator (l : ℝ) (h0 : 0 ≤ l) (hle : l * Real.pi / 180 / 2 ≤ Real.pi / 2) :
    haversine 0 0 0 l = 2 * 6371000 * (l * Real.pi / 180 / 2) := by
  have hx0 : 0 ≤ l * Real.pi / 180 / 2 := by positivity
  have hsin : 0 ≤ Real.sin (l * Real.pi / 180 / 2) :=
    Real.sin_nonneg_of_nonneg_of_le_pi hx0 (hle.trans (by linarith [Real.pi_pos]))
  simp only [haversine, radians]
  rw [show ((0:ℝ) - 0) * Real.pi / 180 = 0 by ring]
  rw [show ((l:ℝ) - 0) * Real.pi / 180 = l * Real.pi / 180 by ring]
  rw [show (0:ℝ) * Real.pi / 180 = 0 by ring]
  rw [show (0:ℝ) / 2 = 0 by norm_num]
  rw [Real.sin_zero, Real.cos_zero]
  rw [show (0:ℝ) ^ 2 + 1 * 1 * Real.sin (l * Real.pi / 180 / 2) ^ 2
      = Real.sin (l * Real.pi / 180 / 2) ^ 2 by ring]
  rw [Real.sqrt_sq hsin]
  rw [Real.arcsin_sin (by linarith) hle]

/-- Placing one point at the origin and the other `m * 180 / (6371000 π)`
degrees of longitude east along the equator realises an exact haversine
distance of `m` meters (for `0 ≤ m ≤ 6371000`). -/
lemma haversine_equator_dist (m : ℝ) (h0 : 0 ≤ m) (hm : m ≤ 6371000) :
    haversine 0 0 0 (m * 180 / (6371000 * Real.pi)) = m := by
  have hπ := Real.pi_pos
  have hl0 : 0 ≤ m * 180 / (6371000 * Real.pi) := by positivity
  have hx : m * 180 / (6371000 * Real.pi) * Real.pi / 180 / 2 = m / 12742000 := by
    field_simp
    ring
  have hle : m * 180 / (6371000 * Real.pi) * Real.pi / 180 / 2 ≤ Real.pi / 2 := by
    rw [hx]
    have h1 : m / 12742000 ≤ 1 / 2 := by
      rw [div_le_div_iff (by norm_num) (by norm_num)]
      linarith
    linarith [Real.pi_gt_three]
  rw [haversine_equator _ hl0 hle, hx]
  field_simp
  ring

/-- Unfolding of `decide_collision_action` on a list with at least two
trains. -/
lemma decide_collision_action_cons (A B : CTrain) (rest : List CTrain) :
    decide_collision_action (A :: B :: rest) =
      (if haversine A.lat A.lon B.lat B.lon ≤ 35 then .stopBoth "Critical proximity"
       else if A.priority.getD 1 > B.priority.getD 1 then
         .stopOne B.id A.id "Train A higher priority"
       else if B.priority.getD 1 > A.priority.getD 1 then
         .stopOne A.id B.id "Train B higher priority"
       else if A.speed.getD 0 > B.speed.getD 0 then .stopOne B.id A.id "Train A faster"
       else if B.speed.getD 0 > A.speed.getD 0 then .stopOne A.id B.id "Train B faster"
       else .stopBoth "Same speed & priority") := rfl

/-- C1: `decide_collision_action` returns `NO_ACTION` for fewer than two
trains; otherwise, on the first two trains `A`, `B`, it returns `STOP_BOTH`
at separation ≤ 35 m ("Critical proximity") or on an exact priority-and-speed
tie, and `STOP_ONE` otherwise with the strictly-higher-priority (on a
priority tie, strictly-faster) train passing; in particular trains 34 m
apart give `STOP_BOTH` for any priorities/speeds, and trains 1000 m apart
with priorities (2, 1) give `STOP_ONE` stopping the priority-1 train. -/
theorem decide_collision_action_spec :
    (∀ trains : List CTrain, trains.length < 2 → decide_collision_action trains = .noAction) ∧
    (∀ (A B : CTrain) (rest : List CTrain), haversine A.lat A.lon B.lat B.lon ≤ 35 →
      decide_collision_action (A :: B :: rest) = .stopBoth "Critical proximity") ∧
    (∀ (A B : CTrain) (rest : List CTrain), 35 < haversine A.lat A.lon B.lat B.lon →
      A.priority.getD 1 = B.priority.getD 1 → A.speed.getD 0 = B.speed.getD 0 →
      decide_collision_action (A :: B :: rest) = .stopBoth "Same speed & priority") ∧
    (∀ (A B : CTrain) (rest : List CTrain), 35 < haversine A.lat A.lon B.lat B.lon →
      B.priority.getD 1 < A.priority.getD 1 →
      decide_collision_action (A :: B :: rest) = .stopOne B.id A.id "Train A higher priority") ∧
    (∀ (A B : CTrain) (rest : List CTrain), 35 < haversine A.lat A.lon B.lat B.lon →
      A.priority.getD 1 < B.priority.getD 1 →
      decide_collision_action (A :: B :: rest) = .stopOne A.id B.id "Train B higher priority") ∧
    (∀ (A B : CTrain) (rest : List CTrain), 35 < haversine A.lat A.lon B.lat B.lon →
      A.priority.getD 1 = B.priority.getD 1 → B.speed.getD 0 < A.speed.getD 0 →
      decide_collision_action (A :: B :: rest) = .stopOne B.id A.id "Train A faster") ∧
    (∀ (A B : CTrain) (rest : List CTrain), 35 < haversine A.lat A.lon B.lat B.lon →
      A.priority.getD 1 = B.priority.getD 1 → A.speed.getD 0 < B.speed.getD 0 →
      decide_collision_action (A :: B :: rest) = .stopOne A.id B.id "Train B faster") ∧
    (∀ (sA sB pA pB : Option ℝ) (rest : List CTrain),
      decide_collision_action (⟨"A", 0, 0, sA, pA⟩ ::
        ⟨"B", 0, 34 * 180 / (6371000 * Real.pi), sB, pB⟩ :: rest) =
        .stopBoth "Critical proximity") ∧
    (decide_collision_action [⟨"A", 0, 0, some 0, some 2⟩,
        ⟨"B", 0, 1000 * 180 / (6371000 * Real.pi), some 0, some 1⟩] =
      .stopOne "B" "A" "Train A higher priority") := by
  have hd34 : haversine 0 0 0 (34 * 180 / (6371000 * Real.pi)) = 34 :=
    haversine_equator_dist 34 (by norm_num) (by norm_num)
  have hd1000 : haversine 0 0 0 (1000 * 180 / (6371000 * Real.pi)) = 1000 :=
    haversine_equator_dist 1000 (by norm_num) (by norm_num)
  refine ⟨?_, ?_, ?_, ?_, ?_, ?_, ?_, ?_, ?_⟩
  · intro trains h
    match trains with
    | [] => rfl
    | [_] => rfl
    | _ :: _ :: _ => simp at h; omega
  · intro A B rest h
    rw [decide_collision_action_cons, if_pos h]
  · intro A B rest hd hp hs
    rw [decide_collision_action_cons, if_neg (not_le.mpr hd),
      if_neg (by rw [hp]; exact lt_irrefl _), if_neg (by rw [hp]; exact lt_irrefl _),
      if_neg (by rw [hs]; exact lt_irrefl _), if_neg (by rw [hs]; exact lt_irrefl _)]
  · intro A B rest hd hp
    rw [decide_collision_action_cons, if_neg (not_le.mpr hd), if_pos hp]
  · intro A B rest hd hp
    rw [decide_collision_action_cons, if_neg (not_le.mpr hd),
      if_neg (not_lt.mpr (le_of_lt hp)), if_pos hp]
  · intro A B rest hd hp hs
    rw [decide_collision_action_cons, if_neg (not_le.mpr hd),
      if_neg (by rw [hp]; exact lt_irrefl _), if_neg (by rw [hp]; exact lt_irrefl _),
      if_pos hs]
  · intro A B rest hd hp hs
    rw [decide_collision_action_cons, if_neg (not_le.mpr hd),
      if_neg (by rw [hp]; exact lt_irrefl _), if_neg (by rw [hp]; exact lt_irrefl _),
      if_neg (not_lt.mpr (le_of_lt hs)), if_pos hs]
  · intro sA sB pA pB rest
    rw [decide_collision_action_cons]
    rw [if_pos (by show haversine 0 0 _ _ ≤ 35; rw [hd34]; norm_num)]
  · rw [decide_collision_action_cons]
    rw [if_neg (by show ¬ haversine 0 0 _ _ ≤ 35; rw [hd1000]; norm_num)]
    rw [if_pos (by show (some (1:ℝ)).getD 1 < (some (2:ℝ)).getD 1; norm_num)]

/-- Witness for C1, invoking the theorem's hypothesis-bearing conjuncts at
concrete inputs. -/
theorem decide_collision_action_spec_witness :
    (([] : List CTrain).length < 2 ∧ decide_collision_action [] = .noAction) ∧
    (35 < haversine 0 0 0 (1000 * 180 / (6371000 * Real.pi)) ∧
      (some (1 : ℝ)).getD 1 < (some (3 : ℝ)).getD 1 ∧
      decide_collision_action [⟨"A", 0, 0, none, some 3⟩,
        ⟨"B", 0, 1000 * 180 / (6371000 * Real.pi), none, some 1⟩] =
        .stopOne "B" "A" "Train A higher priority") := by
  have hd1000 : haversine 0 0 0 (1000 * 180 / (6371000 * Real.pi)) = 1000 :=
    haversine_equator_dist 1000 (by norm_num) (by norm_num)
  refine ⟨⟨by norm_num, decide_collision_action_spec.1 [] (by norm_num)⟩,
    ⟨by rw [hd1000]; norm_num, by norm_num,
     decide_collision_action_spec.2.2.2.1 ⟨"A", 0, 0, none, some 3⟩
       ⟨"B", 0, 1000 * 180 / (6371000 * Real.pi), none, some 1⟩ []
       (by rw [hd1000]; norm_num) (by norm_num)⟩⟩

/-- Evaluation of `segment_track` when both endpoints are known. -/
lemma segment_track_eq (stations : String → Option Coord) (u v : String)
    (segment_length : ℝ) (A B : Coord) (hu : stations u = some A) (hv : stations v = some B) :
    segment_track stations u v segment_length =
      some ((List.range
          (max 1 ⌊haversine A.lat A.lon B.lat B.lon / segment_length⌋).toNat).map
        (fun (i : ℕ) =>
          { id := u ++ "-" ++ v ++ "-" ++ toString i
            start := ⟨A.lat + (B.lat - A.lat) * ((i : ℝ) /
                ((max 1 ⌊haversine A.lat A.lon B.lat B.lon / segment_length⌋ : ℤ) : ℝ)),
              A.lon + (B.lon - A.lon) * ((i : ℝ) /
                ((max 1 ⌊haversine A.lat A.lon B.lat B.lon / segment_length⌋ : ℤ) : ℝ))⟩
            «end» := ⟨A.lat + (B.lat - A.lat) * (((i : ℝ) + 1) /
                ((max 1 ⌊haversine A.lat A.lon B.lat B.lon / segment_length⌋ : ℤ) : ℝ)),
              A.lon + (B.lon - A.lon) * (((i : ℝ) + 1) /
                ((max 1 ⌊haversine A.lat A.lon B.lat B.lon / segment_length⌋ : ℤ) : ℝ))⟩
            env := generate_segment_environment (u ++ "-" ++ v ++ "-" ++ toString i)
              segment_length })) := by
  unfold segment_track
  rw [hu, hv]

/-- C7: with known endpoints, `segment_track` yields exactly
`max(1, floor(total_distance / segment_length))` segments, each with linearly
interpolated coordinates and an identifier built from the edge identity and
the ordinal index; in particular a 250 m edge with 100 m segments yields
exactly 2 segments. -/
theorem segment_track_spec :
    (∀ (stations : String → Option Coord) (u v : String) (segment_length : ℝ) (A B : Coord),
      0 < segment_length → stations u = some A → stations v = some B →
      ∃ segs, segment_track stations u v segment_length = some segs ∧
        segs.length = (max 1 ⌊haversine A.lat A.lon B.lat B.lon / segment_length⌋).toNat ∧
        ∀ i (h : i < segs.length),
          (segs.get ⟨i, h⟩).id = u ++ "-" ++ v ++ "-" ++ toString i ∧
          (segs.get ⟨i, h⟩).start.lat = A.lat + (B.lat - A.lat) * ((i : ℝ) /
            ((max 1 ⌊haversine A.lat A.lon B.lat B.lon / segment_length⌋ : ℤ) : ℝ)) ∧
          (segs.get ⟨i, h⟩).start.lon = A.lon + (B.lon - A.lon) * ((i : ℝ) /
            ((max 1 ⌊haversine A.lat A.lon B.lat B.lon / segment_length⌋ : ℤ) : ℝ)) ∧
          (segs.get ⟨i, h⟩).«end».lat = A.lat + (B.lat - A.lat) * (((i : ℝ) + 1) /
            ((max 1 ⌊haversine A.lat A.lon B.lat B.lon / segment_length⌋ : ℤ) : ℝ)) ∧
          (segs.get ⟨i, h⟩).«end».lon = A.lon + (B.lon - A.lon) * (((i : ℝ) + 1) /
            ((max 1 ⌊haversine A.lat A.lon B.lat B.lon / segment_length⌋ : ℤ) : ℝ))) ∧
    (∃ segs, segment_track
        (fun s => if s = "U" then some ⟨0, 0⟩
          else if s = "V" then some ⟨0, 250 * 180 / (6371000 * Real.pi)⟩ else none)
        "U" "V" 100 = some segs ∧ segs.length = 2) := by
  constructor
  · intro stations u v segment_length A B hpos hu hv
    refine ⟨_, segment_track_eq stations u v segment_length A B hu hv, ?_, ?_⟩
    · simp
    · intro i h
      rw [List.get_eq_getElem, List.getElem_map, List.getElem_range]
      exact ⟨rfl, rfl, rfl, rfl, rfl⟩
  · refine ⟨_, segment_track_eq _ "U" "V" 100 ⟨0, 0⟩ ⟨0, 250 * 180 / (6371000 * Real.pi)⟩
      (by simp) (by simp), ?_⟩
    have hd : haversine (Coord.mk 0 0).lat (Coord.mk 0 0).lon
        (Coord.mk 0 (250 * 180 / (6371000 * Real.pi))).lat
        (Coord.mk 0 (250 * 180 / (6371000 * Real.pi))).lon = 250 := by
      show haversine 0 0 0 (250 * 180 / (6371000 * Real.pi)) = 250
      exact haversine_equator_dist 250 (by norm_num) (by norm_num)
    rw [List.length_map, List.length_range, hd]
    rw [show ⌊(250 : ℝ) / 100⌋ = 2 by norm_num]
    rfl

/-- Witness for C7 at a concrete station map and positive segment length. -/
theorem segment_track_spec_witness :
    (0 : ℝ) < 100 ∧
    ∃ segs, segment_track
        (fun s => if s = "U" then some ⟨0, 0⟩
          else if s = "V" then some ⟨0, 250 * 180 / (6371000 * Real.pi)⟩ else none)
        "U" "V" 100 = some segs := by
  refine ⟨by norm_num, ?_⟩
  obtain ⟨segs, h1, -, -⟩ := segment_track_spec.1
    (fun s => if s = "U" then some ⟨0, 0⟩
      else if s = "V" then some ⟨0, 250 * 180 / (6371000 * Real.pi)⟩ else none)
    "U" "V" 100 ⟨0, 0⟩ ⟨0, 250 * 180 / (6371000 * Real.pi)⟩
    (by norm_num) (by simp) (by simp)
  exact ⟨segs, h1⟩
